import Mathlib

/-!
Shallow embedding of the core of the Packt Free Learning client
(`src/api.py`, `src/claimer.py`, `src/downloader.py`,
`src/utils/anticaptcha.py`).  HTTP traffic is modelled by oracle
functions supplied as arguments; Python exceptions are modelled by an
explicit error type; each embedded operation additionally reports the
trace information (calls made, attempts, refreshes) that the claims
talk about.
-/

namespace Packt

/-- Python exceptions that the embedded code can raise or catch. -/
inductive PyExn where
  | valueError
  | typeError
  | keyError
  | packtConnectionError
  | anticaptchaError (msg : String)
  deriving Repr, DecidableEq

/-! ### `api.py`: `PacktAPIClient.fetch_jwt` and `PacktAPIClient.request` -/

structure HttpResponse where
  status : Nat
  deriving Repr, DecidableEq

/-- The requests `Session`: we track the `authorization` header only. -/
structure Session where
  authHeader : Option String
  deriving Repr, DecidableEq

/-- What the login POST plus JSON parsing yields, as `fetch_jwt` observes it:
`exn` covers `requests.post` raising, `.json()` raising, and the payload
having no `data` key (so `None.get` raises `AttributeError`); `ok access`
is a parsed payload whose `data.access` field is `access` (possibly `None`). -/
inductive LoginResult where
  | exn
  | ok (access : Option String)
  deriving Repr, DecidableEq

/-- Python string interpolation of a possibly-`None` token. -/
def formatToken : Option String → String
  | none => "None"
  | some t => t

/-- The body of `fetch_jwt` before its `except` clause: on success the
session's `authorization` header is replaced by the bearer string. -/
def fetch_jwt_body (login : LoginResult) (_s : Session) : Except PyExn Session :=
  match login with
  | .exn => .error .typeError
  | .ok a => .ok ⟨some ("Bearer " ++ formatToken a)⟩

/-- Model of `fetch_jwt`: the whole body is wrapped in `try/except Exception`,
so any raised exception is swallowed and the session is left unchanged. -/
def fetch_jwt (login : LoginResult) (s : Session) : Session :=
  match fetch_jwt_body login s with
  | .ok s' => s'
  | .error _ => s

/-- Trace of one `PacktAPIClient.request` call: the response returned to
the caller, the session state each upstream attempt was sent with, and
how many token refreshes were performed. -/
structure RequestTrace where
  response : HttpResponse
  sentSessions : List Session
  refreshes : Nat
  deriving Repr, DecidableEq

/-- Model of `PacktAPIClient.request`: `send n s` is the upstream response to the
`n`-th attempt of this call when the session state is `s` (the method,
url and kwargs are fixed — the retry resends the identical request). -/
def request (send : Nat → Session → HttpResponse) (login : LoginResult)
    (s : Session) : RequestTrace :=
  let r1 := send 0 s
  if r1.status = 401 then
    let s' := fetch_jwt login s
    { response := send 1 s', sentSessions := [s, s'], refreshes := 1 }
  else
    { response := r1, sentSessions := [s], refreshes := 0 }

/-! ### `claimer.py`: `get_all_books_data`, `get_single_page_books_data` -/

structure Book where
  id : Nat
  title : String
  deriving Repr, DecidableEq

/-- What one pagination-page request yields: `fail` covers a raised
exception as well as a malformed payload (`data` absent, so the list
comprehension raises `TypeError`) — both are caught by the per-page
`except Exception`. -/
inductive PageFetch where
  | fail
  | ok (items : List Book)
  deriving Repr, DecidableEq

def DEFAULT_PAGINATION_SIZE : Nat := 25

/-- Model of `get_single_page_books_data`: on any exception the `except` clause
logs and falls off the end of the function, returning `None`. -/
def get_single_page_books_data (pages : Nat → PageFetch) (page : Nat) :
    Option (List Book) :=
  match pages page with
  | .fail => none
  | .ok l => some l

/-- The items a page holds when it succeeds (empty on failure). -/
def pageItems (pages : Nat → PageFetch) (page : Nat) : List Book :=
  match pages page with
  | .fail => []
  | .ok l => l

/-- Computes `ceil(count / DEFAULT_PAGINATION_SIZE)` on naturals. -/
def pagesTotal (count : Nat) : Nat :=
  (count + DEFAULT_PAGINATION_SIZE - 1) / DEFAULT_PAGINATION_SIZE

/-- Model of `get_all_books_data`: `countResp` is `response.json().get('count')`
(`none` when the count request raises or the payload has no usable
`count`, making `ceil(None / 25)` raise `TypeError`).  The body builds
`list(chain(*map(get_single_page_books_data, range(pages_total))))`:
the `*` forces every page fetch, and materialising the chain raises
`TypeError` as soon as it reaches a page that returned `None`; that
`TypeError` is caught by the outer `except (AttributeError, TypeError)`,
which logs and returns `None` for the whole fetch. -/
def get_all_books_data (countResp : Option Nat) (pages : Nat → PageFetch) :
    Option (List Book) :=
  match countResp with
  | none => none
  | some count =>
    let pageResults :=
      (List.range (pagesTotal count)).map (get_single_page_books_data pages)
    if pageResults.all Option.isSome then
      some ((pageResults.map (fun r => r.getD [])).flatten)
    else
      none

/-! ### `claimer.py`: `claim_product` -/

structure Offer where
  id : Nat
  productId : Nat
  deriving Repr, DecidableEq

structure Product where
  id : Nat
  title : String
  deriving Repr, DecidableEq

/-- The HTTP calls `claim_product` can make, in the order the code makes
them (`books` stands for the whole `get_all_books_data` sub-flow). -/
inductive ApiCall where
  | offers
  | user
  | summary
  | books
  | captcha
  | claimPut
  deriving Repr, DecidableEq

/-- The environment `claim_product` runs against: one field per remote
interaction, as the code observes it. -/
structure ClaimEnv where
  /-- Models `offer_response.json().get('data')`: `none` when the key is absent. -/
  offersData : Option (List Offer)
  /-- Models `user_response.json().get('data')`, a list of user ids. -/
  userData : Option (List Nat)
  /-- Models `product_response.status_code`. -/
  summaryStatus : Nat
  /-- Models `product_response.json()['title']`: `none` when the key is absent
  (subscripting then raises `KeyError`). -/
  summaryTitle : Option String
  /-- the count response seen by `get_all_books_data`. -/
  booksCount : Option Nat
  /-- the page responses seen by `get_all_books_data`. -/
  bookPages : Nat → PageFetch
  /-- Models `solve_recaptcha`: a solution token, or a raised exception. -/
  captchaResult : Except PyExn String
  /-- Models `claim_response.status_code`. -/
  claimStatus : Nat

deriving instance DecidableEq for Except

structure ClaimResult where
  /-- what `claim_product` returns (`product_data`, possibly `None`),
  or the exception it raises. -/
  result : Except PyExn (Option Product)
  /-- the HTTP calls performed, in order, up to the point of return or raise. -/
  calls : List ApiCall
  deriving Repr, DecidableEq

/-- Python's `[x] = xs` single-element unpacking: `TypeError` on `None`,
`ValueError` on a list whose length is not 1. -/
def unpackSingle {α : Type} : Option (List α) → Except PyExn α
  | none => .error .typeError
  | some [x] => .ok x
  | some _ => .error .valueError

/-- Model of `claim_product`, step for step. -/
def claim_product (env : ClaimEnv) : ClaimResult :=
  match unpackSingle env.offersData with
  | .error e => ⟨.error e, [.offers]⟩
  | .ok offer =>
    match unpackSingle env.userData with
    | .error e => ⟨.error e, [.offers, .user]⟩
    | .ok _user_id =>
      let productStep : Except PyExn (Option Product) :=
        if env.summaryStatus = 200 then
          match env.summaryTitle with
          | none => .error .keyError
          | some t => .ok (some ⟨offer.productId, t⟩)
        else .ok none
      match productStep with
      | .error e => ⟨.error e, [.offers, .user, .summary]⟩
      | .ok product_data =>
        match get_all_books_data env.booksCount env.bookPages with
        | none =>
          -- iterating `None` in the `any(...)` generator raises `TypeError`
          ⟨.error .typeError, [.offers, .user, .summary, .books]⟩
        | some books =>
          if books.any (fun b => offer.productId = b.id) then
            -- the log line formats `product_data['title']`
            match product_data with
            | none => ⟨.error .typeError, [.offers, .user, .summary, .books]⟩
            | some pd => ⟨.ok (some pd), [.offers, .user, .summary, .books]⟩
          else
            match env.captchaResult with
            | .error e => ⟨.error e, [.offers, .user, .summary, .books, .captcha]⟩
            | .ok _solution =>
              let calls := [.offers, .user, .summary, .books, .captcha, .claimPut]
              if env.claimStatus = 200 ∨ env.claimStatus = 409 then
                -- both branches format `product_data['title']` in their log line
                match product_data with
                | none => ⟨.error .typeError, calls⟩
                | some pd => ⟨.ok (some pd), calls⟩
              else
                ⟨.ok product_data, calls⟩

/-! ### `utils/anticaptcha.py`: `Anticaptcha.__wait_for_task_result` -/

/-- One `getTaskResult` response, as `__post_request` classifies it:
a non-empty `errorId` raises; otherwise the `status` field is either
`ready` (with the solution payload) or something else (`processing`). -/
inductive PollResult where
  | provError (code desc : String)
  | ready (solution : String)
  | processing
  deriving Repr, DecidableEq

/-- Value of `Anticaptcha.timeout`, the fixed class attribute. -/
def Anticaptcha.timeout : Nat := 120

/-- The message of the exception `__post_request` raises on a provider
error code. -/
def errorMsg (code desc : String) : String :=
  "Error " ++ code ++ " occured: " ++ desc

/-- The message of the exception raised when the polling loop times out. -/
def timeoutMsg : String :=
  "Timeout " ++ toString Anticaptcha.timeout ++ " reached "

/-- Outcome of `__wait_for_task_result`: the raised
`AnticaptchaException` (carrying its message), or the ready response's
solution. -/
inductive WaitOutcome where
  | exn (msg : String)
  | solved (solution : String)
  deriving Repr, DecidableEq

/-- The polling loop.  `polls j` is the `j`-th poll's response and
`durs j` the wall-clock seconds that poll itself takes; each iteration
then sleeps one further second.  `elapsed` is `time.time() - start_time`
at the loop head and `i` the number of polls already made.  `fuel` is an
upper bound on the remaining iterations: since every iteration advances
`elapsed` by at least one second, any `fuel` with
`timeout ≤ elapsed + fuel` is enough, and the entry point passes
`fuel = timeout`; when `fuel = 0` then `elapsed ≥ timeout` and the loop
raises the timeout exception exactly as the `while` guard does.
Returns the outcome and the total number of polls made. -/
def waitLoop (polls : Nat → PollResult) (durs : Nat → Nat) :
    Nat → Nat → Nat → WaitOutcome × Nat
  | 0, i, _elapsed => (.exn timeoutMsg, i)
  | fuel + 1, i, elapsed =>
    if elapsed < Anticaptcha.timeout then
      match polls i with
      | .provError c d => (.exn (errorMsg c d), i + 1)
      | .ready sol => (.solved sol, i + 1)
      | .processing => waitLoop polls durs fuel (i + 1) (elapsed + durs i + 1)
    else
      (.exn timeoutMsg, i)

/-- Model of `__wait_for_task_result`: run the loop from a fresh `start_time`. -/
def wait_for_task_result (polls : Nat → PollResult) (durs : Nat → Nat) :
    WaitOutcome × Nat :=
  waitLoop polls durs Anticaptcha.timeout 0 0

/-! ### `downloader.py`: `get_product_download_urls`, `download_products` -/

/-- What the file-types request for one product yields: `exn` is any
exception inside the `try` (network error, malformed payload) — the
`except` clause re-raises it as `PacktConnectionError`; `resp` is a
completed response with its status and, when usable, the
`data[0].fileTypes` list. -/
inductive TypesLookup where
  | exn
  | resp (status : Nat) (fileTypes : List String)
  deriving Repr, DecidableEq

def PACKT_API_PRODUCT_FILE_DOWNLOAD_URL (productId : Nat) (fileType : String) :
    String :=
  "https://services.packtpub.com/products-v1/products/" ++ toString productId
    ++ "/files/" ++ fileType

/-- Model of `get_product_download_urls`: status 200 maps each file type to its
download URL (insertion order preserved); any other status logs and
returns the empty mapping; an exception is re-raised as
`PacktConnectionError`. -/
def get_product_download_urls (lookup : TypesLookup) (productId : Nat) :
    Except PyExn (List (String × String)) :=
  match lookup with
  | .exn => .error .packtConnectionError
  | .resp status fileTypes =>
    if status = 200 then
      .ok (fileTypes.map
        (fun f => (f, PACKT_API_PRODUCT_FILE_DOWNLOAD_URL productId f)))
    else
      .ok []

/-- The file types a lookup response offers (empty unless status 200). -/
def typesOf : TypesLookup → List String
  | .exn => []
  | .resp status fileTypes => if status = 200 then fileTypes else []

/-- Outcome of one attempted download (everything from resolving the
signed URL to the rename): `ok` is a completed download; `exn` is any
raised exception — including the `RequestException` raised on a non-200
file response — caught by the per-format `except Exception`. -/
inductive DlOut where
  | ok
  | exn
  deriving Repr, DecidableEq

/-- Environment `download_products` runs against, keyed by product id. -/
structure DlEnv where
  lookup : Nat → TypesLookup
  /-- Models `os.path.isfile(full_file_path)` for this product and extension. -/
  fileExists : Nat → String → Bool
  /-- result of the download attempt for this product and format. -/
  outcome : Nat → String → DlOut

/-- The `file_extention` helper (spelling kept from the source). -/
def file_extention (format : String) : String :=
  if format = "video" ∨ format = "code" then "zip" else format

/-- The inner `for format, download_url in download_urls.items()` loop of
`download_products` for one product, recursing over the remaining items
while the full `urls` mapping stays available for the `'video' in
download_urls` check: returns the number of newly downloaded items and
the list of `(product id, format)` download attempts actually issued, in
loop order (skips — unrequested format, suppressed `code`, already
existing file — issue none). -/
def downloadFormatsAux (env : DlEnv) (formats : List String) (productId : Nat)
    (urls : List (String × String)) :
    List (String × String) → Nat × List (Nat × String)
  | [] => (0, [])
  | fu :: rest =>
    let r := downloadFormatsAux env formats productId urls rest
    if fu.1 ∈ formats
        ∧ ¬(fu.1 = "code" ∧ urls.any (fun u => u.1 = "video")
            ∧ "video" ∈ formats) then
      if env.fileExists productId (file_extention fu.1) then r
      else
        match env.outcome productId fu.1 with
        | .ok => (r.1 + 1, (productId, fu.1) :: r.2)
        | .exn => (r.1, (productId, fu.1) :: r.2)
    else r

/-- The whole per-product format loop. -/
def downloadFormats (env : DlEnv) (formats : List String) (productId : Nat)
    (urls : List (String × String)) : Nat × List (Nat × String) :=
  downloadFormatsAux env formats productId urls urls

/-- Result of `download_products`: `completed` is whether the function
reached its final "`n` ebooks have been downloaded" log line (false when
a `PacktConnectionError` escaped), `count` the successes so far, and
`attempts` every download attempt issued. -/
structure DlResult where
  completed : Bool
  count : Nat
  attempts : List (Nat × String)
  deriving Repr, DecidableEq

/-- The product loop of `download_products`.  A `PacktConnectionError`
from `get_product_download_urls` is not caught anywhere in the function,
so it aborts the remaining products and skips the final log. -/
def dlGo (env : DlEnv) (formats : List String) :
    List Book → Nat → List (Nat × String) → DlResult
  | [], count, attempts => ⟨true, count, attempts⟩
  | book :: rest, count, attempts =>
    match get_product_download_urls (env.lookup book.id) book.id with
    | .error _ => ⟨false, count, attempts⟩
    | .ok urls =>
      let p := downloadFormats env formats book.id urls
      dlGo env formats rest (count + p.1) (attempts ++ p.2)

/-- Model of `download_products`. -/
def download_products (env : DlEnv) (formats : List String)
    (products : List Book) : DlResult :=
  dlGo env formats products 0 []

/-! ## Theorems -/

/-- C2: on a 401 first response, `request` refreshes the token exactly
once and retries the identical request exactly once, returning the second
response whatever its status (200 or another 401 alike); on any non-401
first response it performs no refresh and no retry and returns the first
response. -/
theorem request_single_retry_on_401 (send : Nat → Session → HttpResponse)
    (login : LoginResult) (s : Session) :
    ((send 0 s).status = 401 →
      request send login s =
        { response := send 1 (fetch_jwt login s)
          sentSessions := [s, fetch_jwt login s]
          refreshes := 1 }) ∧
    ((send 0 s).status ≠ 401 →
      request send login s =
        { response := send 0 s, sentSessions := [s], refreshes := 0 }) := by
  constructor <;> intro h <;> simp [request, h]

/-- Server that answers 401 to the first attempt, 200 to the retry. -/
def c2send : Nat → Session → HttpResponse :=
  fun n _ => if n = 0 then ⟨401⟩ else ⟨200⟩

theorem request_single_retry_on_401_witness :
    (c2send 0 ⟨none⟩).status = 401 ∧
    request c2send .exn ⟨none⟩ =
      { response := c2send 1 (fetch_jwt .exn ⟨none⟩)
        sentSessions := [⟨none⟩, fetch_jwt .exn ⟨none⟩]
        refreshes := 1 } :=
  ⟨by decide, (request_single_retry_on_401 c2send .exn ⟨none⟩).1 (by decide)⟩

/-- C10: `request` makes at most two upstream attempts in all cases; when
the first response is 401 the retry is issued even if the token fetch
fails, because `fetch_jwt` catches every exception, and on such a failure
the session (hence its authorization header) is left unchanged, so the
retry carries the previous bearer token. -/
theorem request_retry_even_on_refresh_failure
    (send : Nat → Session → HttpResponse) (login : LoginResult) (s : Session) :
    (request send login s).sentSessions.length ≤ 2 ∧
    ((send 0 s).status = 401 →
      (request send login s).sentSessions = [s, fetch_jwt login s] ∧
      (request send login s).response = send 1 (fetch_jwt login s)) ∧
    (∀ e : PyExn, fetch_jwt_body login s = .error e → fetch_jwt login s = s) := by
  refine ⟨?_, fun h => ?_, fun e he => ?_⟩
  · by_cases h : (send 0 s).status = 401 <;> simp [request, h]
  · simp [request, h]
  · simp [fetch_jwt, he]

/-- Server that answers 401 to every attempt. -/
def c10send : Nat → Session → HttpResponse := fun _ _ => ⟨401⟩

theorem request_retry_even_on_refresh_failure_witness :
    (request c10send .exn ⟨some "Bearer stale"⟩).sentSessions.length ≤ 2 ∧
    ((c10send 0 ⟨some "Bearer stale"⟩).status = 401 ∧
      (request c10send .exn ⟨some "Bearer stale"⟩).sentSessions =
        [⟨some "Bearer stale"⟩, fetch_jwt .exn ⟨some "Bearer stale"⟩]) ∧
    (fetch_jwt_body .exn ⟨some "Bearer stale"⟩ = .error .typeError ∧
      fetch_jwt .exn ⟨some "Bearer stale"⟩ = ⟨some "Bearer stale"⟩) := by
  refine ⟨(request_retry_even_on_refresh_failure c10send .exn _).1,
    ⟨by decide, ((request_retry_even_on_refresh_failure c10send .exn _).2.1
      (by decide)).1⟩,
    by decide,
    (request_retry_even_on_refresh_failure c10send .exn
      ⟨some "Bearer stale"⟩).2.2 .typeError (by decide)⟩

/-- Pages that overlap: every page returns the same product id 1. -/
def c1pages : Nat → PageFetch := fun _ => .ok [⟨1, "Book A"⟩]

/-- C1 counterexample: with a count of 30 (two pages) and both pages
returning product id 1, `get_all_books_data` returns the id twice — the
code never deduplicates, so the claimed no-duplicates property fails. -/
theorem get_all_books_data_duplicates_counterexample :
    get_all_books_data (some 30) c1pages =
      some [⟨1, "Book A"⟩, ⟨1, "Book A"⟩] ∧
    ¬ (((get_all_books_data (some 30) c1pages).getD []).map Book.id).Nodup := by
  decide

/-- C1 (amended): when the count request succeeds and every page fetch
succeeds, `get_all_books_data` returns exactly the concatenation of the
pages' items in ascending page order, with no deduplication — duplicate
ids from overlapping pages are kept. -/
theorem get_all_books_data_concat (count : Nat) (pages : Nat → PageFetch)
    (h : ∀ p, p < pagesTotal count → pages p ≠ .fail) :
    get_all_books_data (some count) pages =
      some (((List.range (pagesTotal count)).map (pageItems pages)).flatten) := by
  have hall : ((List.range (pagesTotal count)).map
      (get_single_page_books_data pages)).all Option.isSome = true := by
    rw [List.all_eq_true]
    intro x hx
    rw [List.mem_map] at hx
    obtain ⟨p, hp, rfl⟩ := hx
    have hnf := h p (List.mem_range.mp hp)
    cases hpp : pages p with
    | fail => exact absurd hpp hnf
    | ok l => simp [get_single_page_books_data, hpp]
  have hmap : ∀ p ∈ List.range (pagesTotal count),
      (get_single_page_books_data pages p).getD [] = pageItems pages p := by
    intro p _
    cases hpp : pages p <;> simp [get_single_page_books_data, pageItems, hpp]
  have hmap' : ∀ p ∈ List.range (pagesTotal count),
      ((fun r => Option.getD r []) ∘ get_single_page_books_data pages) p =
        pageItems pages p :=
    fun p hp => hmap p hp
  simp only [get_all_books_data, hall, if_true, List.map_map]
  rw [List.map_congr_left hmap']

theorem get_all_books_data_concat_witness :
    get_all_books_data (some 30) c1pages =
      some (((List.range (pagesTotal 30)).map (pageItems c1pages)).flatten) :=
  get_all_books_data_concat 30 c1pages (fun p _ => by simp [c1pages])

/-- Two pages worth of data where only page 0 succeeds. -/
def c4pages : Nat → PageFetch :=
  fun p => if p = 0 then .ok [⟨1, "Book A"⟩] else .fail

/-- C4 counterexample: with a count of 30 (two pages), page 0 succeeding
and page 1 failing, `get_all_books_data` returns `None` — the products of
the surviving page 0 are not returned, contradicting the claim that a
failing page only contributes no products while the others survive. -/
theorem get_all_books_data_page_failure_counterexample :
    c4pages 0 = .ok [⟨1, "Book A"⟩] ∧
    get_all_books_data (some 30) c4pages = none := by
  decide

/-- C4 (amended): a single page's fetch failure is caught and logged for
that page, but the `None` it leaves in the chain raises `TypeError` when
the results are materialised, which the outer handler turns into an
overall failure: `get_all_books_data` returns `None`, discarding every
other page's products. -/
theorem get_all_books_data_page_failure_aborts (count : Nat)
    (pages : Nat → PageFetch) (p : Nat) (hp : p < pagesTotal count)
    (hf : pages p = .fail) :
    get_all_books_data (some count) pages = none := by
  have hall : ((List.range (pagesTotal count)).map
      (get_single_page_books_data pages)).all Option.isSome = false := by
    rw [List.all_eq_false]
    exact ⟨none,
      List.mem_map.mpr ⟨p, List.mem_range.mpr hp,
        by simp [get_single_page_books_data, hf]⟩,
      by simp⟩
  simp [get_all_books_data, hall]

theorem get_all_books_data_page_failure_aborts_witness :
    1 < pagesTotal 30 ∧ c4pages 1 = .fail ∧
    get_all_books_data (some 30) c4pages = none :=
  ⟨by decide, by decide,
    get_all_books_data_page_failure_aborts 30 c4pages 1 (by decide) (by decide)⟩

/-- An environment whose offers query reports zero offers. -/
def c3env : ClaimEnv :=
  { offersData := some []
    userData := some [7]
    summaryStatus := 200
    summaryTitle := some "Some Title"
    booksCount := some 0
    bookPages := fun _ => .ok []
    captchaResult := .ok "recaptcha-token"
    claimStatus := 200 }

/-- C3 counterexample: with zero offers, `claim_product` fails with the
generic `ValueError` of single-element unpacking — the code defines no
`NoOfferAvailable` error at all (the identical `ValueError` also arises
for two offers, so the failure does not signal "no offer" specifically) —
though indeed no further HTTP call is made. -/
theorem claim_product_zero_offers_counterexample :
    claim_product c3env = ⟨.error .valueError, [.offers]⟩ ∧
    claim_product { c3env with offersData := some [⟨1, 1⟩, ⟨2, 2⟩] } =
      ⟨.error .valueError, [.offers]⟩ := by
  decide

/-- C3 (amended): with zero offers, `claim_product` fails by the
single-element unpacking raising a plain `ValueError` (there is no
dedicated `NoOfferAvailable` exception in the code) and performs no
further HTTP calls — no user lookup, no product summary, no library
fetch, no CAPTCHA solve, no claim PUT. -/
theorem claim_product_zero_offers_fails_early (env : ClaimEnv)
    (h : env.offersData = some []) :
    claim_product env = ⟨.error .valueError, [.offers]⟩ := by
  unfold claim_product
  rw [h]
  rfl

theorem claim_product_zero_offers_fails_early_witness :
    c3env.offersData = some [] ∧
    claim_product c3env = ⟨.error .valueError, [.offers]⟩ :=
  ⟨rfl, claim_product_zero_offers_fails_early c3env rfl⟩

/-- An environment where the summary call fails (status 404) and the
offered product (id 1) is already in the library. -/
def c5env : ClaimEnv :=
  { offersData := some [⟨10, 1⟩]
    userData := some [7]
    summaryStatus := 404
    summaryTitle := none
    booksCount := some 1
    bookPages := fun _ => .ok [⟨1, "Book A"⟩]
    captchaResult := .ok "recaptcha-token"
    claimStatus := 200 }

/-- C5 counterexample: the offered product id 1 is already in the fetched
library, but because the product-summary call returned 404 the code has
bound `product_data` to `None`, and formatting the "already claimed" log
message raises `TypeError` — no Product is returned (the CAPTCHA solve
and claim PUT are still skipped). -/
theorem claim_product_already_claimed_counterexample :
    claim_product c5env =
      ⟨.error .typeError, [.offers, .user, .summary, .books]⟩ := by
  decide

/-- C5 (amended): when the offered product id is already present in the
fetched library, `claim_product` returns the Product immediately — with
no CAPTCHA solve and no claim PUT — provided the product-summary call
returned 200 so that `product_data` was built; when the summary call did
not return 200, the "already claimed" log line raises `TypeError` instead
of returning (CAPTCHA and claim PUT are still not reached). -/
theorem claim_product_already_claimed_returns (env : ClaimEnv) (o : Offer)
    (u : Nat) (t : String) (books : List Book)
    (hoff : env.offersData = some [o])
    (huser : env.userData = some [u])
    (hsum : env.summaryStatus = 200)
    (htitle : env.summaryTitle = some t)
    (hbooks : get_all_books_data env.booksCount env.bookPages = some books)
    (hmem : books.any (fun b => o.productId = b.id) = true) :
    claim_product env =
      ⟨.ok (some ⟨o.productId, t⟩), [.offers, .user, .summary, .books]⟩ := by
  unfold claim_product
  rw [hoff, huser, hsum, htitle, hbooks]
  simp [unpackSingle, hmem]

/-- Like `c5env` but with a successful summary call. -/
def c5envOk : ClaimEnv := { c5env with summaryStatus := 200
                                       summaryTitle := some "Book A" }

theorem claim_product_already_claimed_returns_witness :
    c5envOk.offersData = some [⟨10, 1⟩] ∧
    c5envOk.userData = some [7] ∧
    c5envOk.summaryStatus = 200 ∧
    c5envOk.summaryTitle = some "Book A" ∧
    get_all_books_data c5envOk.booksCount c5envOk.bookPages =
      some [⟨1, "Book A"⟩] ∧
    ([(⟨1, "Book A"⟩ : Book)].any (fun b => (1 : Nat) = b.id)) = true ∧
    claim_product c5envOk =
      ⟨.ok (some ⟨1, "Book A"⟩), [.offers, .user, .summary, .books]⟩ :=
  ⟨rfl, rfl, rfl, rfl, by decide, by decide,
    claim_product_already_claimed_returns c5envOk ⟨10, 1⟩ 7 "Book A"
      [⟨1, "Book A"⟩] rfl rfl rfl rfl (by decide) (by decide)⟩

/-- An environment where the summary call fails (status 500) and the
product is not yet owned, so the flow runs through CAPTCHA and claim PUT. -/
def c6env : ClaimEnv :=
  { offersData := some [⟨10, 1⟩]
    userData := some [7]
    summaryStatus := 500
    summaryTitle := none
    booksCount := some 0
    bookPages := fun _ => .ok []
    captchaResult := .ok "recaptcha-token"
    claimStatus := 200 }

/-- C6: when the product-summary call does not return 200, the code binds
`product_data` to `None` (not a Product with a null title); the success
(200) and already-claimed (409) branches then raise `TypeError` while
formatting their log message, so the flow does not complete; and on any
other claim status the function returns `None`, not a Product.  This
theorem evaluates the embedded code at the failing inputs. -/
theorem claim_product_none_summary_crash :
    claim_product c6env =
      ⟨.error .typeError, [.offers, .user, .summary, .books, .captcha, .claimPut]⟩ ∧
    claim_product { c6env with claimStatus := 409 } =
      ⟨.error .typeError, [.offers, .user, .summary, .books, .captcha, .claimPut]⟩ ∧
    claim_product { c6env with claimStatus := 500 } =
      ⟨.ok none, [.offers, .user, .summary, .books, .captcha, .claimPut]⟩ := by
  decide

/-- Helper for C7: under polls that never come back ready (and never
carry a provider error), the polling loop always ends in the timeout
exception, whatever the fuel, poll index and elapsed time. -/
theorem waitLoop_processing_times_out (polls : Nat → PollResult)
    (durs : Nat → Nat) (hall : ∀ j, polls j = .processing) :
    ∀ fuel i e, (waitLoop polls durs fuel i e).1 = .exn timeoutMsg := by
  intro fuel
  induction fuel with
  | zero => intro i e; rfl
  | succ n ih =>
    intro i e
    by_cases he : e < Anticaptcha.timeout
    · simp only [waitLoop, he, if_true, hall i]
      exact ih (i + 1) (e + durs i + 1)
    · simp [waitLoop, he]

/-- C7: if the polls never report `ready`, `__wait_for_task_result` fails
with the timeout exception, whose message names the fixed 120-second
timeout value, and once the elapsed time has reached the timeout the loop
performs no further poll (the poll count stays exactly at `i`, whatever
the remaining fuel). -/
theorem wait_for_task_result_timeout (polls : Nat → PollResult)
    (durs : Nat → Nat) (hall : ∀ j, polls j = .processing) :
    (wait_for_task_result polls durs).1 = .exn timeoutMsg ∧
    timeoutMsg = "Timeout 120 reached " ∧
    (∀ fuel i e, Anticaptcha.timeout ≤ e →
      waitLoop polls durs fuel i e = (.exn timeoutMsg, i)) := by
  refine ⟨waitLoop_processing_times_out polls durs hall _ 0 0, by decide,
    fun fuel i e he => ?_⟩
  cases fuel with
  | zero => rfl
  | succ n => simp [waitLoop, Nat.not_lt.mpr he]

theorem wait_for_task_result_timeout_witness :
    (wait_for_task_result (fun _ => .processing) (fun _ => 0)).1 =
      .exn timeoutMsg :=
  (wait_for_task_result_timeout (fun _ => .processing) (fun _ => 0)
    (fun _ => rfl)).1

/-- Environment where the file-types lookup raises for product 1 but
works for product 2, whose download would succeed. -/
def c8env : DlEnv :=
  { lookup := fun pid => if pid = 1 then .exn else .resp 200 ["pdf"]
    fileExists := fun _ _ => false
    outcome := fun _ _ => .ok }

/-- C8 counterexample: an exception inside the file-types lookup for
product 1 is re-raised as `PacktConnectionError`, which nothing in
`download_products` catches: the batch aborts (`completed = false`),
product 2 is never attempted and the final total-count log line is never
reached — even though the same environment downloads product 2 fine when
product 1 is absent. -/
theorem download_products_lookup_abort_counterexample :
    download_products c8env ["pdf"] [⟨1, "Book A"⟩, ⟨2, "Book B"⟩] =
      ⟨false, 0, []⟩ ∧
    download_products c8env ["pdf"] [⟨2, "Book B"⟩] =
      ⟨true, 1, [(2, "pdf")]⟩ := by
  decide

/-- Helper for C8: when no product's file-types lookup raises,
`dlGo` runs every product and reaches the final log line. -/
theorem dlGo_completed (env : DlEnv) (formats : List String) :
    ∀ (products : List Book) (c : Nat) (a : List (Nat × String)),
      (∀ b ∈ products, env.lookup b.id ≠ .exn) →
      (dlGo env formats products c a).completed = true := by
  intro products
  induction products with
  | nil => intro c a _; rfl
  | cons b rest ih =>
    intro c a h
    cases hl : env.lookup b.id with
    | exn => exact absurd hl (h b (List.mem_cons_self b rest))
    | resp status fts =>
      simp only [dlGo, get_product_download_urls, hl]
      by_cases hs : status = 200 <;>
        simp only [hs, if_true, if_false, reduceIte] <;>
        exact ih _ _ (fun x hx => h x (List.mem_cons_of_mem b hx))

/-- C8 (amended): a non-success (non-200) file-types lookup contributes
zero formats without aborting, and any exception during a single
format's download is caught and logged without aborting — but only
provided no file-types lookup raises an exception; under that proviso
`download_products` always reaches its final log of the total count
(`completed = true`).  (When a lookup raises, the `PacktConnectionError`
aborts the remaining products — see the counterexample.) -/
theorem download_products_isolates_failures (env : DlEnv)
    (formats : List String) (products : List Book)
    (h : ∀ b ∈ products, env.lookup b.id ≠ .exn) :
    (download_products env formats products).completed = true :=
  dlGo_completed env formats products 0 [] h

/-- Environment where product 1's lookup is non-200 and one of product
2's formats fails to download, yet the batch must complete. -/
def c8okenv : DlEnv :=
  { lookup := fun pid =>
      if pid = 1 then .resp 500 ["pdf"] else .resp 200 ["pdf", "epub"]
    fileExists := fun _ _ => false
    outcome := fun _ f => if f = "pdf" then .exn else .ok }

theorem download_products_isolates_failures_witness :
    (download_products c8okenv ["pdf", "epub"]
      [⟨1, "Book A"⟩, ⟨2, "Book B"⟩]).completed = true :=
  download_products_isolates_failures c8okenv ["pdf", "epub"]
    [⟨1, "Book A"⟩, ⟨2, "Book B"⟩] (by decide)

/-- Helper for C9: when `video` is among the product's available types
(so among the url keys) and is requested, the format loop never issues a
download attempt for the `code` format of that product. -/
theorem downloadFormatsAux_no_code (env : DlEnv) (formats : List String)
    (pid : Nat) (urls : List (String × String))
    (hvu : urls.any (fun u => u.1 = "video") = true)
    (hvf : "video" ∈ formats) :
    ∀ (l : List (String × String)) (q : Nat),
      (q, "code") ∉ (downloadFormatsAux env formats pid urls l).2 := by
  intro l
  induction l with
  | nil => intro q; simp [downloadFormatsAux]
  | cons fu rest ih =>
    intro q
    simp only [downloadFormatsAux]
    split
    case isTrue hcond =>
      by_cases hc : fu.1 = "code"
      · exact absurd ⟨hc, hvu, hvf⟩ hcond.2
      · split
        · exact ih q
        · split <;>
          · intro hmem
            rcases List.mem_cons.mp hmem with heq | hmem'
            · exact hc (congrArg Prod.snd heq).symm
            · exact ih q hmem'
    case isFalse hcond => exact ih q

/-- Helper for C9: every attempt the format loop issues belongs to the
product being processed. -/
theorem downloadFormatsAux_attempts_owner (env : DlEnv)
    (formats : List String) (pid : Nat) (urls : List (String × String)) :
    ∀ (l : List (String × String)) (q : Nat) (f : String),
      (q, f) ∈ (downloadFormatsAux env formats pid urls l).2 → q = pid := by
  intro l
  induction l with
  | nil => intro q f h; simp [downloadFormatsAux] at h
  | cons fu rest ih =>
    intro q f h
    simp only [downloadFormatsAux] at h
    split at h
    · split at h
      · exact ih q f h
      · split at h <;>
        · rcases List.mem_cons.mp h with heq | h'
          · exact congrArg Prod.fst heq
          · exact ih q f h'
    · exact ih q f h

/-- Helper for C9: the product loop never issues a `code` attempt for a
product whose available types include `video` when `video` is requested. -/
theorem dlGo_no_code (env : DlEnv) (formats : List String) (pid : Nat)
    (hvf : "video" ∈ formats) (hva : "video" ∈ typesOf (env.lookup pid)) :
    ∀ (products : List Book) (c : Nat) (a : List (Nat × String)),
      (pid, "code") ∉ a →
      (pid, "code") ∉ (dlGo env formats products c a).attempts := by
  intro products
  induction products with
  | nil => intro c a ha; exact ha
  | cons b rest ih =>
    intro c a ha
    cases hl : env.lookup b.id with
    | exn => simpa [dlGo, get_product_download_urls, hl] using ha
    | resp status fts =>
      simp only [dlGo, get_product_download_urls, hl]
      by_cases hs : status = 200
      · simp only [hs, if_true, reduceIte]
        apply ih
        intro hmem
        rcases List.mem_append.mp hmem with hina | hinp
        · exact ha hina
        · by_cases hb : b.id = pid
          · have hfts : "video" ∈ fts := by
              rw [hb] at hl
              rw [hl] at hva
              simpa [typesOf, hs] using hva
            have hvu : ((fts.map (fun f =>
                (f, PACKT_API_PRODUCT_FILE_DOWNLOAD_URL b.id f))).any
                  (fun u => u.1 = "video")) = true := by
              rw [List.any_eq_true]
              exact ⟨("video", PACKT_API_PRODUCT_FILE_DOWNLOAD_URL b.id "video"),
                List.mem_map.mpr ⟨"video", hfts, rfl⟩, by simp⟩
            exact downloadFormatsAux_no_code env formats b.id _ hvu hvf _ pid hinp
          · exact hb (downloadFormatsAux_attempts_owner env formats b.id _ _
              pid "code" hinp).symm
      · simp only [hs, if_false, reduceIte]
        apply ih
        simpa [downloadFormats, downloadFormatsAux] using ha

/-- C9: `download_products` never requests the `code` artifact of a
product whose available format mapping contains `video` while `video` is
among the requested formats; and conversely, at the loop step deciding a
`code` item, when `video` is not both available and requested — and the
`code` format is requested with no file already on disk — the `code`
download attempt is issued. -/
theorem download_products_code_suppression (env : DlEnv)
    (formats : List String) (products : List Book) (pid : Nat) :
    ("video" ∈ formats → "video" ∈ typesOf (env.lookup pid) →
      (pid, "code") ∉ (download_products env formats products).attempts) ∧
    (∀ (urls rest : List (String × String)) (u : String),
      "code" ∈ formats →
      ¬((urls.any (fun v => v.1 = "video")) = true ∧ "video" ∈ formats) →
      env.fileExists pid "zip" = false →
      (downloadFormatsAux env formats pid urls (("code", u) :: rest)).2 =
        (pid, "code") :: (downloadFormatsAux env formats pid urls rest).2) := by
  constructor
  · intro hvf hva
    exact dlGo_no_code env formats pid hvf hva products 0 [] (by simp)
  · intro urls rest u hreq hnot hex
    have hcond : (("code", u).1 ∈ formats
        ∧ ¬(("code", u).1 = "code" ∧ (urls.any (fun v => v.1 = "video"))
            ∧ "video" ∈ formats)) := by
      refine ⟨hreq, fun hcon => hnot ⟨hcon.2.1, hcon.2.2⟩⟩
    have hzip : env.fileExists pid (file_extention ("code", u).1) = false := by
      simpa [file_extention] using hex
    have hny : ¬(True ∧ (urls.any fun v => v.1 = "video") = true
        ∧ "video" ∈ formats) :=
      fun hcon => hnot ⟨hcon.2.1, hcon.2.2⟩
    simp only [downloadFormatsAux, if_pos hcond, hzip]
    cases ho : env.outcome pid "code" <;> simp only [ho] <;>
      rw [if_pos ⟨hreq, hny⟩] <;> simp

/-- Environment where product 1 offers both `video` and `code`. -/
def c9env : DlEnv :=
  { lookup := fun _ => .resp 200 ["video", "code"]
    fileExists := fun _ _ => false
    outcome := fun _ _ => .ok }

theorem download_products_code_suppression_witness :
    (1, "code") ∉
      (download_products c9env ["video", "code"] [⟨1, "Book A"⟩]).attempts :=
  (download_products_code_suppression c9env ["video", "code"]
    [⟨1, "Book A"⟩] 1).1 (by decide) (by decide)

end Packt
